import Mathlib

/-!
Shallow embedding of the Sky Fruit Catcher game engine
(`gameEngine.js`, class `GameEngine`) together with proofs about the
behaviour its specification describes.

Modelling conventions:
* JavaScript numbers are modelled as `ℚ` (positions, speeds, random draws)
  and `ℤ`/`ℕ` (remaining time, score, level, counters).
* Every engine method that fires registered callbacks is modelled as a
  function `EngineState → EngineState × List GEvent`, where the event list
  records, in order, the notifications the method emits (all callbacks are
  assumed registered, as `main.js` registers every one of them).
* The JavaScript runtime timer table (`setTimeout` / `clearTimeout`) is
  modelled explicitly: `pending` is the list of live timeout entries,
  `nextHandle` a fresh-handle counter, and `now` the ambient clock, so that
  statements about "at most one live expiry timer" are about a real
  multiset of live timers and not true by the shape of a type.
* `Math.random()` draws are passed in as explicit `ℚ` parameters in `[0,1)`.
-/

namespace SkyFruit

/-- Lane of the basket and of falling items: "Left" / "Center" / "Right". -/
inductive Lane
  | Left
  | Center
  | Right
deriving DecidableEq, Repr

/-- Item kinds of the engine: the strings "Apple", "Banana", "Bomb",
"Shield", "Magnet", "Time" used in `gameEngine.js`. -/
inductive ItemType
  | Apple
  | Banana
  | Bomb
  | Shield
  | Magnet
  | Time
deriving DecidableEq, Repr

/-- Falling item record, as built by `spawnItem`:
`{ id, type, points, lane, y, originalSpeed, speed }`.  The string id
`item_<n>` is modelled by the counter value `n`. -/
structure Item where
  id : ℕ
  type : ItemType
  points : ℕ
  lane : Lane
  y : ℚ
  originalSpeed : ℚ
  speed : ℚ
deriving DecidableEq, Repr

/-- Kind of a pending runtime timeout: the two effect-expiry callbacks the
engine schedules. -/
inductive TimerKind
  | magnetExpiry
  | timeSlowExpiry
deriving DecidableEq, Repr

/-- One live `setTimeout` entry of the JavaScript runtime: its handle, the
time at which it is due, and which callback it runs. -/
structure PendingTimer where
  handle : ℕ
  deadline : ℕ
  kind : TimerKind
deriving DecidableEq, Repr

/-- Notifications emitted through the engine's registered callbacks, in
the order the engine invokes them. -/
inductive GEvent
  | scoreChange (score : ℕ) (level : ℕ)
  | gameEnd (score : ℕ) (level : ℕ) (reason : String)
  | timeUpdate (t : ℤ)
  | itemSpawn (it : Item)
  | itemRemove (id : ℕ)
  | basketMove (lane : Lane)
  | effectChange (shield : Bool) (magnet : Bool) (timeSlow : Bool)
  | render (items : List Item)
deriving DecidableEq, Repr

/-- Mutable state of a `GameEngine` instance, plus the runtime timer table
(`pending`, `nextHandle`) and ambient clock (`now`) needed to model
`setTimeout`/`clearTimeout`. -/
structure EngineState where
  score : ℕ
  level : ℕ
  timeLimit : ℤ
  isGameActive : Bool
  currentPose : Lane
  items : List Item
  itemCounter : ℕ
  basketPosition : Lane
  hasShield : Bool
  isMagnetActive : Bool
  isTimeSlowActive : Bool
  baseSpeed : ℚ
  magnetTimer : Option ℕ
  timeSlowTimer : Option ℕ
  pending : List PendingTimer
  nextHandle : ℕ
  now : ℕ
deriving DecidableEq, Repr

namespace GameEngine

/-- Engine state right after `new GameEngine()` (constructor field values),
with an empty runtime timer table. -/
def initialState : EngineState :=
  { score := 0
    level := 1
    timeLimit := 0
    isGameActive := false
    currentPose := Lane.Center
    items := []
    itemCounter := 0
    basketPosition := Lane.Center
    hasShield := false
    isMagnetActive := false
    isTimeSlowActive := false
    baseSpeed := 5/10
    magnetTimer := none
    timeSlowTimer := none
    pending := []
    nextHandle := 1
    now := 0 }

/-- Method `notifyEffects`: fires `onEffectChange` with the three effect
flags. -/
def notifyEffects (s : EngineState) : EngineState × List GEvent :=
  (s, [GEvent.effectChange s.hasShield s.isMagnetActive s.isTimeSlowActive])

/-- Runtime effect of `if (this.magnetTimer) clearTimeout(this.magnetTimer)`:
removes from the live timer table any entry whose handle is the one
remembered in `magnetTimer` (a no-op when `magnetTimer` is unset or the
remembered timer already fired). -/
def clearMagnetTimeout (s : EngineState) : EngineState :=
  { s with pending := s.pending.filter (fun t => s.magnetTimer ≠ some t.handle) }

/-- Runtime effect of `if (this.timeSlowTimer) clearTimeout(this.timeSlowTimer)`. -/
def clearTimeSlowTimeout (s : EngineState) : EngineState :=
  { s with pending := s.pending.filter (fun t => s.timeSlowTimer ≠ some t.handle) }

/-- Method `disableMagnet`: clears the flag, notifies, cancels the
remembered expiry timeout. -/
def disableMagnet (s : EngineState) : EngineState × List GEvent :=
  let s1 := { s with isMagnetActive := false }
  let n := notifyEffects s1
  (clearMagnetTimeout n.1, n.2)

/-- Method `disableTimeSlow`: clears the flag, notifies, cancels the
remembered expiry timeout. -/
def disableTimeSlow (s : EngineState) : EngineState × List GEvent :=
  let s1 := { s with isTimeSlowActive := false }
  let n := notifyEffects s1
  (clearTimeSlowTimeout n.1, n.2)

/-- Method `activateMagnet`: sets the flag, notifies, cancels the
remembered expiry timeout, then schedules a fresh 5000 ms expiry timeout
and remembers its handle. -/
def activateMagnet (s : EngineState) : EngineState × List GEvent :=
  let s1 := { s with isMagnetActive := true }
  let n := notifyEffects s1
  let s3 := clearMagnetTimeout n.1
  let s4 := { s3 with
    pending := s3.pending ++ [⟨s3.nextHandle, s3.now + 5000, TimerKind.magnetExpiry⟩]
    magnetTimer := some s3.nextHandle
    nextHandle := s3.nextHandle + 1 }
  (s4, n.2)

/-- Method `activateTimeSlow`: symmetric to `activateMagnet`. -/
def activateTimeSlow (s : EngineState) : EngineState × List GEvent :=
  let s1 := { s with isTimeSlowActive := true }
  let n := notifyEffects s1
  let s3 := clearTimeSlowTimeout n.1
  let s4 := { s3 with
    pending := s3.pending ++ [⟨s3.nextHandle, s3.now + 5000, TimerKind.timeSlowExpiry⟩]
    timeSlowTimer := some s3.nextHandle
    nextHandle := s3.nextHandle + 1 }
  (s4, n.2)

/-- Method `stop(reason)`: sets the active flag false, cancels the
countdown/spawn/physics schedules, runs `disableMagnet` and
`disableTimeSlow`, then fires `onGameEnd(score, level, reason)`.  Note the
method has no guard on `isGameActive`. -/
def stop (reason : String) (s : EngineState) : EngineState × List GEvent :=
  let s1 := { s with isGameActive := false }
  let d1 := disableMagnet s1
  let d2 := disableTimeSlow d1.1
  (d2.1, d1.2 ++ d2.2 ++ [GEvent.gameEnd d2.1.score d2.1.level reason])

/-- Method `addScore(points)`: adds to the score and fires
`onScoreChange(score, level)`. -/
def addScore (points : ℕ) (s : EngineState) : EngineState × List GEvent :=
  let s1 := { s with score := s.score + points }
  (s1, [GEvent.scoreChange s1.score s1.level])

/-- Method `handleCatch(item)`: dispatch on the item kind.  The JavaScript
`default` branch coincides with the `Apple` branch; with the closed kind
enumeration it is reachable only for `Apple`. -/
def handleCatch (item : Item) (s : EngineState) : EngineState × List GEvent :=
  match item.type with
  | ItemType.Bomb =>
      if s.hasShield then
        let s1 := { s with hasShield := false }
        notifyEffects s1
      else
        stop "Bomb" s
  | ItemType.Shield =>
      let s1 := { s with hasShield := true }
      notifyEffects s1
  | ItemType.Magnet => activateMagnet s
  | ItemType.Time => activateTimeSlow s
  | ItemType.Banana => addScore 200 s
  | ItemType.Apple => addScore 100 s

/-- Body of the `setInterval` countdown callback in `startTimer`:
decrements the remaining time, fires `onTimeUpdate`, applies the
level-up rule at remaining time 40 or 20, and calls `stop("Timeout")`
when the remaining time has reached zero.  The body performs no check of
`isGameActive`. -/
def timerTick (s : EngineState) : EngineState × List GEvent :=
  let s1 := { s with timeLimit := s.timeLimit - 1 }
  let e1 := [GEvent.timeUpdate s1.timeLimit]
  let p :=
    if s1.timeLimit = 40 ∨ s1.timeLimit = 20 then
      ({ s1 with level := s1.level + 1, baseSpeed := s1.baseSpeed + 1/10 },
        [GEvent.scoreChange s1.score (s1.level + 1)])
    else (s1, ([] : List GEvent))
  if p.1.timeLimit ≤ 0 then
    let q := stop "Timeout" p.1
    (q.1, e1 ++ p.2 ++ q.2)
  else
    (p.1, e1 ++ p.2)

/-- Lane selection `lanes[Math.floor(Math.random() * lanes.length)]` for a
draw `r ∈ [0,1)`. -/
def laneOfRand (r : ℚ) : Lane :=
  match (⌊r * 3⌋).toNat with
  | 0 => Lane.Left
  | 1 => Lane.Center
  | _ => Lane.Right

/-- Item-kind selection of `spawnItem`: the ordered cumulative probability
table on one draw `rand ∈ [0,1)`. -/
def itemTypeOfRand (rand : ℚ) : ItemType :=
  if rand < 15/100 then ItemType.Bomb
  else if rand < 25/100 then ItemType.Banana
  else if rand < 30/100 then ItemType.Shield
  else if rand < 35/100 then ItemType.Magnet
  else if rand < 40/100 then ItemType.Time
  else ItemType.Apple

/-- Point value assigned alongside the kind in `spawnItem`. -/
def pointsOfType : ItemType → ℕ
  | ItemType.Apple => 100
  | ItemType.Banana => 200
  | _ => 0

/-- Item record built by `spawnItem` from the two random draws and the
current state. -/
def mkSpawnItem (laneR typeR : ℚ) (s : EngineState) : Item :=
  let lane := laneOfRand laneR
  let type := itemTypeOfRand typeR
  let speed := s.baseSpeed + (if type = ItemType.Banana then 2/10 else 0)
  { id := s.itemCounter
    type := type
    points := pointsOfType type
    lane := lane
    y := 0
    originalSpeed := speed
    speed := speed }

/-- Method `spawnItem`: builds the item, pushes it, increments the item
counter and fires `onItemSpawn`. -/
def spawnItem (laneR typeR : ℚ) (s : EngineState) : EngineState × List GEvent :=
  let item := mkSpawnItem laneR typeR s
  ({ s with items := s.items ++ [item], itemCounter := s.itemCounter + 1 },
   [GEvent.itemSpawn item])

/-- Body of the self-rescheduling `spawn` closure in `startSpawning`: it
returns without doing anything when the game is no longer active,
otherwise spawns one item (the rescheduling delay itself carries no state). -/
def spawnTick (laneR typeR : ℚ) (s : EngineState) : EngineState × List GEvent :=
  if s.isGameActive then spawnItem laneR typeR s else (s, [])

/-- Kinds eligible for the magnet: the literal list
`["Apple", "Banana", "Shield", "Magnet", "Time"]` of `updatePhysics`. -/
def collectibleKinds : List ItemType :=
  [ItemType.Apple, ItemType.Banana, ItemType.Shield, ItemType.Magnet, ItemType.Time]

/-- Per-item motion phase of `updatePhysics` (`forEach` body): advance
position at the time-slow-scaled speed, then snap the lane to the basket
under an active magnet once past the 50-mark. -/
def moveItem (s : EngineState) (it : Item) : Item :=
  let currentSpeed := if s.isTimeSlowActive then it.originalSpeed * (1/2) else it.originalSpeed
  let it1 := { it with y := it.y + currentSpeed }
  if s.isMagnetActive ∧ it1.y > 50 ∧ collectibleKinds.contains it1.type ∧
      it1.lane ≠ s.basketPosition then
    { it1 with lane := s.basketPosition }
  else it1

/-- Filter phase of `updatePhysics` (`this.items.filter(...)`), with its
side effects: processes the items in order, returning the final engine
state, the kept items and the emitted notifications.  An item past 100 is
removed as missed; an item in the catch band that is caught goes through
`handleCatch` and is removed; any other item is kept. -/
def processItems : EngineState → List Item → EngineState × List Item × List GEvent
  | s, [] => (s, [], [])
  | s, it :: rest =>
    if it.y > 100 then
      let r := processItems s rest
      (r.1, r.2.1, GEvent.itemRemove it.id :: r.2.2)
    else if (80 < it.y ∧ it.y < 95) ∧
        (it.lane = s.basketPosition ∨
          (s.isMagnetActive = true ∧ collectibleKinds.contains it.type = true)) then
      let c := handleCatch it s
      let r := processItems c.1 rest
      (r.1, r.2.1, c.2 ++ GEvent.itemRemove it.id :: r.2.2)
    else
      let r := processItems s rest
      (r.1, it :: r.2.1, r.2.2)

/-- Method `updatePhysics`: move every item, run the catch/miss filter,
store the surviving items and fire `onRender` with them. -/
def updatePhysics (s : EngineState) : EngineState × List GEvent :=
  let moved := s.items.map (moveItem s)
  let r := processItems s moved
  ({ r.1 with items := r.2.1 }, r.2.2 ++ [GEvent.render r.2.1])

/-- Body of the `requestAnimationFrame` loop in `startGameLoop`: a no-op
once the game is inactive, otherwise one physics update. -/
def gameLoopTick (s : EngineState) : EngineState × List GEvent :=
  if s.isGameActive then updatePhysics s else (s, [])

/-- Method `onPoseDetected(pose)`: ignored while inactive; otherwise moves
the basket and fires `onBasketMove`.  (The JavaScript membership test on
the three lane strings always passes for a value of `Lane`.) -/
def onPoseDetected (pose : Lane) (s : EngineState) : EngineState × List GEvent :=
  if s.isGameActive then
    ({ s with basketPosition := pose }, [GEvent.basketMove pose])
  else (s, [])

/-- Runtime delivery of the magnet expiry timeout with handle `h`: the
runtime removes the fired entry from the live table, then the callback
`() => this.disableMagnet()` runs.  Delivering a handle that is not live
is a no-op. -/
def magnetFire (h : ℕ) (s : EngineState) : EngineState × List GEvent :=
  if s.pending.any (fun t => t.handle = h ∧ t.kind = TimerKind.magnetExpiry) then
    disableMagnet { s with pending := s.pending.filter (fun t => t.handle ≠ h) }
  else (s, [])

/-- Runtime delivery of the time-slow expiry timeout with handle `h`. -/
def timeSlowFire (h : ℕ) (s : EngineState) : EngineState × List GEvent :=
  if s.pending.any (fun t => t.handle = h ∧ t.kind = TimerKind.timeSlowExpiry) then
    disableTimeSlow { s with pending := s.pending.filter (fun t => t.handle ≠ h) }
  else (s, [])

/-- Method `start(config)`: a no-op while active; otherwise resets the
session state, clears the effects (emitting the corresponding
notifications) and launches the three loops (whose tick bodies are
modelled separately). -/
def start (timeLimit : ℤ) (s : EngineState) : EngineState × List GEvent :=
  if s.isGameActive then (s, [])
  else
    let s1 := { s with
      isGameActive := true
      score := 0
      level := 1
      timeLimit := timeLimit
      items := []
      currentPose := Lane.Center
      basketPosition := Lane.Center
      baseSpeed := 3/10
      hasShield := false }
    let d1 := disableMagnet s1
    let d2 := disableTimeSlow d1.1
    let n := notifyEffects d2.1
    (n.1, d1.2 ++ d2.2 ++ n.2)

/-- Events delivered to the engine during a session: the three loop tick
bodies, an inbound pose signal, an external `stop`, and runtime delivery
of an effect-expiry timeout.  (`start` begins a session and is not a
within-session event.) -/
inductive GameOp
  | timer
  | spawn (laneR typeR : ℚ)
  | loop
  | pose (p : Lane)
  | stopOp (reason : String)
  | magnetExpiryFire (h : ℕ)
  | timeSlowExpiryFire (h : ℕ)

/-- Interpretation of one delivered event. -/
def applyOp : GameOp → EngineState → EngineState × List GEvent
  | GameOp.timer, s => timerTick s
  | GameOp.spawn laneR typeR, s => spawnTick laneR typeR s
  | GameOp.loop, s => gameLoopTick s
  | GameOp.pose p, s => onPoseDetected p s
  | GameOp.stopOp reason, s => stop reason s
  | GameOp.magnetExpiryFire h, s => magnetFire h s
  | GameOp.timeSlowExpiryFire h, s => timeSlowFire h s

end GameEngine

open GameEngine

/-- Classifier for game-end notifications. -/
def isGameEndEv : GEvent → Bool
  | GEvent.gameEnd _ _ _ => true
  | _ => false

/-- Classifier for score/level-change notifications. -/
def isScoreChangeEv : GEvent → Bool
  | GEvent.scoreChange _ _ => true
  | _ => false

/-- Live magnet-expiry entries of the runtime timer table. -/
def magnetPending (s : EngineState) : List PendingTimer :=
  s.pending.filter (fun t => t.kind = TimerKind.magnetExpiry)

/-- Live time-slow-expiry entries of the runtime timer table. -/
def timeSlowPending (s : EngineState) : List PendingTimer :=
  s.pending.filter (fun t => t.kind = TimerKind.timeSlowExpiry)

/-- Well-formedness of the runtime timer table as the engine maintains it:
live handles are distinct and below the fresh-handle counter, and each
live expiry entry is the one remembered in the corresponding
`magnetTimer` / `timeSlowTimer` field. -/
def EngineInv (s : EngineState) : Prop :=
  (s.pending.map PendingTimer.handle).Nodup ∧
  (∀ t ∈ s.pending, t.handle < s.nextHandle) ∧
  (∀ t ∈ s.pending, t.kind = TimerKind.magnetExpiry → s.magnetTimer = some t.handle) ∧
  (∀ t ∈ s.pending, t.kind = TimerKind.timeSlowExpiry → s.timeSlowTimer = some t.handle)

instance (s : EngineState) : Decidable (EngineInv s) := by
  unfold EngineInv
  infer_instance

/-- Catch condition exactly as the specification words it: the position
lies strictly within the 80 to 95 catch band, and either the lanes agree
or the magnet is active and the kind is collectible (any kind other than
Bomb). -/
def caughtSpec (s : EngineState) (it : Item) : Prop :=
  80 < it.y ∧ it.y < 95 ∧
    (it.lane = s.basketPosition ∨ (s.isMagnetActive = true ∧ it.type ≠ ItemType.Bomb))

instance (s : EngineState) (it : Item) : Decidable (caughtSpec s it) := by
  unfold caughtSpec
  infer_instance

/-- Sample state with the magnet effect on and its expiry timer live;
used to evaluate theorems on concrete inputs. -/
def magnetOnState : EngineState :=
  { initialState with
    isGameActive := true
    isMagnetActive := true
    magnetTimer := some 1
    pending := [⟨1, 5000, TimerKind.magnetExpiry⟩]
    nextHandle := 2 }

/-- Sample active state with a shield. -/
def shieldOnState : EngineState :=
  { initialState with isGameActive := true, hasShield := true }

/-- Sample active state with no effects. -/
def plainActiveState : EngineState :=
  { initialState with isGameActive := true, timeLimit := 60 }

/-- Sample bomb item sitting in the catch band of the Center lane. -/
def bombItem : Item :=
  { id := 7, type := ItemType.Bomb, points := 0, lane := Lane.Center,
    y := 85, originalSpeed := 3/10, speed := 3/10 }

/-- Sample apple item sitting in the catch band of the Center lane. -/
def appleItem : Item :=
  { id := 8, type := ItemType.Apple, points := 100, lane := Lane.Center,
    y := 86, originalSpeed := 3/10, speed := 3/10 }

/-- Inactive state whose next countdown tick crosses the 40-second
threshold; used to evaluate the countdown tick after a `stop`. -/
def inactiveAt41 : EngineState :=
  { initialState with timeLimit := 41, isGameActive := false }

/-! Helper lemmas about the state left behind by `stop` and the effect
functions.  All of them follow by unfolding record updates. -/

theorem stop_fst_score (reason : String) (s : EngineState) :
    (stop reason s).1.score = s.score := rfl

theorem stop_fst_level (reason : String) (s : EngineState) :
    (stop reason s).1.level = s.level := rfl

theorem stop_fst_items (reason : String) (s : EngineState) :
    (stop reason s).1.items = s.items := rfl

theorem stop_fst_basket (reason : String) (s : EngineState) :
    (stop reason s).1.basketPosition = s.basketPosition := rfl

theorem stop_fst_hasShield (reason : String) (s : EngineState) :
    (stop reason s).1.hasShield = s.hasShield := rfl

theorem stop_fst_active (reason : String) (s : EngineState) :
    (stop reason s).1.isGameActive = false := rfl

theorem stop_fst_timeLimit (reason : String) (s : EngineState) :
    (stop reason s).1.timeLimit = s.timeLimit := rfl

theorem stop_fst_baseSpeed (reason : String) (s : EngineState) :
    (stop reason s).1.baseSpeed = s.baseSpeed := rfl

theorem stop_events (reason : String) (s : EngineState) :
    (stop reason s).2 =
      [GEvent.effectChange s.hasShield false s.isTimeSlowActive,
       GEvent.effectChange s.hasShield false false,
       GEvent.gameEnd s.score s.level reason] := rfl

/-- C1: the specification says a `stop` on an already-inactive session is
a no-op and the game-end notification fires exactly once per session; the
code has no guard, so a second consecutive `stop` fires the game-end
callback again.  Starting from the constructor state (inactive), one
`stop` emits a game-end notification, and a second consecutive `stop`
emits another. -/
theorem c1_stop_not_idempotent_counterexample :
    GameEngine.initialState.isGameActive = false ∧
    (GameEngine.stop "Bomb" GameEngine.initialState).2.countP isGameEndEv = 1 ∧
    (GameEngine.stop "Bomb"
        ((GameEngine.stop "Bomb" GameEngine.initialState).1)).2.countP isGameEndEv = 1 := by
  decide

/-- C1 (amended): `stop` is not guarded on the active flag.  Every call,
including one on an already-inactive session, sets the active flag false
and fires the game-end notification exactly once, so two consecutive
calls to `stop` produce two game-end notifications. -/
theorem c1_stop_always_notifies (reason : String) (s : EngineState) :
    (GameEngine.stop reason s).1.isGameActive = false ∧
    (GameEngine.stop reason s).2.countP isGameEndEv = 1 := by
  exact ⟨rfl, rfl⟩

/-- C9: the specification says every self-rescheduling activity re-checks
the active flag before doing work, so that an in-flight countdown tick
delivered after `stop` performs no time decrement, no notification and no
level change.  The countdown tick body has no such check: on a concrete
inactive state with 41 seconds remaining it still decrements the time to
40, raises the level and emits notifications. -/
theorem c9_countdown_ignores_active_counterexample :
    inactiveAt41.isGameActive = false ∧
    (GameEngine.timerTick inactiveAt41).1.timeLimit = 40 ∧
    (GameEngine.timerTick inactiveAt41).1.level = inactiveAt41.level + 1 ∧
    (GameEngine.timerTick inactiveAt41).2 ≠ [] := by
  decide

/-- C9 (amended): the spawn tick and the physics tick re-check the active
flag and are complete no-ops on an inactive session, but the countdown
tick body performs no such check: delivered after `stop` it still
decrements the remaining time and emits a time-update notification. -/
theorem c9_only_spawn_and_loop_check_active (s : EngineState) (laneR typeR : ℚ)
    (h : s.isGameActive = false) :
    GameEngine.spawnTick laneR typeR s = (s, []) ∧
    GameEngine.gameLoopTick s = (s, []) ∧
    (GameEngine.timerTick s).1.timeLimit = s.timeLimit - 1 ∧
    GEvent.timeUpdate (s.timeLimit - 1) ∈ (GameEngine.timerTick s).2 := by
  refine ⟨?_, ?_, ?_, ?_⟩
  · simp [GameEngine.spawnTick, h]
  · simp [GameEngine.gameLoopTick, h]
  · unfold GameEngine.timerTick
    dsimp only
    split_ifs <;> rfl
  · unfold GameEngine.timerTick
    dsimp only
    split_ifs <;> simp [stop_events]

/-- C9 (witness): the amended statement evaluated on the constructor
state, which is inactive. -/
theorem c9_only_spawn_and_loop_check_active_witness :
    GameEngine.initialState.isGameActive = false ∧
    (GameEngine.spawnTick 0 0 GameEngine.initialState = (GameEngine.initialState, []) ∧
     GameEngine.gameLoopTick GameEngine.initialState = (GameEngine.initialState, []) ∧
     (GameEngine.timerTick GameEngine.initialState).1.timeLimit =
        GameEngine.initialState.timeLimit - 1 ∧
     GEvent.timeUpdate (GameEngine.initialState.timeLimit - 1) ∈
        (GameEngine.timerTick GameEngine.initialState).2) :=
  ⟨rfl, c9_only_spawn_and_loop_check_active GameEngine.initialState 0 0 rfl⟩

/-- C2: catching a Bomb with the Shield up consumes the Shield (flag goes
true to false, one effect-change notification, score unchanged, session
still active); catching a Bomb without the Shield runs `stop("Bomb")`, so
the session goes inactive and the game-end notification carries reason
"Bomb"; and no item kind other than Bomb ever changes the active flag. -/
theorem c2_bomb_shield_dispatch (it : Item) (s : EngineState)
    (hb : it.type = ItemType.Bomb) :
    (s.hasShield = true →
      (GameEngine.handleCatch it s).1.hasShield = false ∧
      (GameEngine.handleCatch it s).1.score = s.score ∧
      (GameEngine.handleCatch it s).1.isGameActive = s.isGameActive ∧
      (GameEngine.handleCatch it s).2 =
        [GEvent.effectChange false s.isMagnetActive s.isTimeSlowActive]) ∧
    (s.hasShield = false →
      GameEngine.handleCatch it s = GameEngine.stop "Bomb" s ∧
      (GameEngine.handleCatch it s).1.isGameActive = false ∧
      GEvent.gameEnd s.score s.level "Bomb" ∈ (GameEngine.handleCatch it s).2) ∧
    (∀ (it2 : Item) (s2 : EngineState), it2.type ≠ ItemType.Bomb →
      (GameEngine.handleCatch it2 s2).1.isGameActive = s2.isGameActive) := by
  refine ⟨?_, ?_, ?_⟩
  · intro hs
    simp [GameEngine.handleCatch, hb, hs, notifyEffects]
  · intro hs
    refine ⟨?_, ?_, ?_⟩
    · simp [GameEngine.handleCatch, hb, hs]
    · simp [GameEngine.handleCatch, hb, hs, stop_fst_active]
    · simp [GameEngine.handleCatch, hb, hs, stop_events]
  · intro it2 s2 h2
    cases ht : it2.type <;>
      simp_all [GameEngine.handleCatch, addScore, notifyEffects,
        activateMagnet, activateTimeSlow, clearMagnetTimeout, clearTimeSlowTimeout]

/-- C2 (witness): the Bomb dispatch evaluated with a concrete Bomb item on
a concrete shielded state. -/
theorem c2_bomb_shield_dispatch_witness :
    bombItem.type = ItemType.Bomb ∧
    ((shieldOnState.hasShield = true →
      (GameEngine.handleCatch bombItem shieldOnState).1.hasShield = false ∧
      (GameEngine.handleCatch bombItem shieldOnState).1.score = shieldOnState.score ∧
      (GameEngine.handleCatch bombItem shieldOnState).1.isGameActive = shieldOnState.isGameActive ∧
      (GameEngine.handleCatch bombItem shieldOnState).2 =
        [GEvent.effectChange false shieldOnState.isMagnetActive shieldOnState.isTimeSlowActive]) ∧
    (shieldOnState.hasShield = false →
      GameEngine.handleCatch bombItem shieldOnState = GameEngine.stop "Bomb" shieldOnState ∧
      (GameEngine.handleCatch bombItem shieldOnState).1.isGameActive = false ∧
      GEvent.gameEnd shieldOnState.score shieldOnState.level "Bomb" ∈
        (GameEngine.handleCatch bombItem shieldOnState).2) ∧
    (∀ (it2 : Item) (s2 : EngineState), it2.type ≠ ItemType.Bomb →
      (GameEngine.handleCatch it2 s2).1.isGameActive = s2.isGameActive)) :=
  ⟨rfl, c2_bomb_shield_dispatch bombItem shieldOnState rfl⟩

/-- C3: one step of the physics-tick filter follows exactly the
specification's three exclusive outcomes.  An item past 100 is removed as
missed with an item-removed notification and no state impact (the engine
state is threaded on unchanged); an item is caught — catch handling
invoked, item dropped from the kept set, item-removed notification
emitted — precisely when `caughtSpec` holds, i.e. its position is
strictly between 80 and 95 and (its lane is the basket lane, or the
magnet is active and its kind is not Bomb); otherwise the item stays.
The final conjunct records that the kept items of the filter become the
active item set of the tick. -/
theorem c3_catch_band_rule (s : EngineState) (it : Item) (rest : List Item) :
    GameEngine.processItems s (it :: rest) =
      (if it.y > 100 then
        ((GameEngine.processItems s rest).1, (GameEngine.processItems s rest).2.1,
          GEvent.itemRemove it.id :: (GameEngine.processItems s rest).2.2)
      else if caughtSpec s it then
        ((GameEngine.processItems (GameEngine.handleCatch it s).1 rest).1,
          (GameEngine.processItems (GameEngine.handleCatch it s).1 rest).2.1,
          (GameEngine.handleCatch it s).2 ++
            GEvent.itemRemove it.id ::
              (GameEngine.processItems (GameEngine.handleCatch it s).1 rest).2.2)
      else
        ((GameEngine.processItems s rest).1, it :: (GameEngine.processItems s rest).2.1,
          (GameEngine.processItems s rest).2.2)) ∧
    (GameEngine.updatePhysics s).1.items =
      (GameEngine.processItems s (s.items.map (GameEngine.moveItem s))).2.1 := by
  constructor
  · have hcoll : (collectibleKinds.contains it.type = true) ↔ it.type ≠ ItemType.Bomb := by
      cases h : it.type <;> simp [collectibleKinds, h]
    have hcond : ((80 < it.y ∧ it.y < 95) ∧
        (it.lane = s.basketPosition ∨
          (s.isMagnetActive = true ∧ collectibleKinds.contains it.type = true)))
        ↔ caughtSpec s it := by
      unfold caughtSpec
      rw [hcoll, and_assoc]
    simp only [GameEngine.processItems]
    by_cases h1 : it.y > 100
    · simp only [if_pos h1]
    · rw [if_neg h1, if_neg h1]
      by_cases h2 : caughtSpec s it
      · rw [if_pos h2, if_pos (hcond.2 h2)]
      · rw [if_neg h2, if_neg (fun hh => h2 (hcond.1 hh))]
  · rfl

/-- C4: in every countdown tick, the level increments by exactly 1 and the
base speed grows by exactly 1/10 precisely when the decremented remaining
time equals 40 or 20 — with a score/level-change notification carrying the
unchanged score — no other remaining-time value changes the level, and the
tick goes through `stop("Timeout")` (session inactive, game-end
notification with reason "Timeout") exactly when the decremented remaining
time has reached zero. -/
theorem c4_countdown_levelups (s : EngineState) :
    (GameEngine.timerTick s).1.level =
      (if s.timeLimit - 1 = 40 ∨ s.timeLimit - 1 = 20 then s.level + 1 else s.level) ∧
    (GameEngine.timerTick s).1.baseSpeed =
      (if s.timeLimit - 1 = 40 ∨ s.timeLimit - 1 = 20 then s.baseSpeed + 1/10 else s.baseSpeed) ∧
    (GameEngine.timerTick s).1.score = s.score ∧
    ((GameEngine.timerTick s).2.countP isScoreChangeEv =
      if s.timeLimit - 1 = 40 ∨ s.timeLimit - 1 = 20 then 1 else 0) ∧
    (GEvent.scoreChange s.score (s.level + 1) ∈ (GameEngine.timerTick s).2 ↔
      (s.timeLimit - 1 = 40 ∨ s.timeLimit - 1 = 20)) ∧
    ((GameEngine.timerTick s).1.isGameActive =
      if s.timeLimit - 1 ≤ 0 then false else s.isGameActive) ∧
    (GEvent.gameEnd s.score s.level "Timeout" ∈ (GameEngine.timerTick s).2 ↔
      s.timeLimit - 1 ≤ 0) := by
  unfold GameEngine.timerTick
  dsimp only
  by_cases hl : s.timeLimit - 1 = 40 ∨ s.timeLimit - 1 = 20
  · have hz : ¬ (s.timeLimit - 1 ≤ 0) := by omega
    rw [if_pos hl]
    dsimp only
    rw [if_neg hz, if_pos hl, if_pos hl, if_neg hz]
    simp [isScoreChangeEv, isGameEndEv, hl, hz, List.countP_cons]
  · by_cases hz : s.timeLimit - 1 ≤ 0
    · rw [if_neg hl]
      dsimp only
      rw [if_pos hz, if_neg hl, if_neg hl, if_pos hz]
      simp [stop_events, stop_fst_score, stop_fst_level, stop_fst_baseSpeed,
        stop_fst_active, isScoreChangeEv, isGameEndEv, hl, hz, List.countP_cons]
    · rw [if_neg hl]
      dsimp only
      rw [if_neg hz, if_neg hl, if_neg hl, if_neg hz]
      simp [isScoreChangeEv, isGameEndEv, hl, hz, List.countP_cons]

/-- Score written by `handleCatch`: Apple adds exactly 100, Banana exactly
200, every other kind leaves the score unchanged. -/
theorem handleCatch_fst_score (it : Item) (s : EngineState) :
    (GameEngine.handleCatch it s).1.score =
      s.score + (if it.type = ItemType.Apple then 100
        else if it.type = ItemType.Banana then 200 else 0) := by
  cases h : it.type
  all_goals
    simp [GameEngine.handleCatch, h, GameEngine.addScore, GameEngine.notifyEffects,
      GameEngine.activateMagnet, GameEngine.activateTimeSlow,
      GameEngine.clearMagnetTimeout, GameEngine.clearTimeSlowTimeout, stop_fst_score]
  all_goals split_ifs <;> rfl

/-- Catch resolution never changes the level. -/
theorem handleCatch_fst_level (it : Item) (s : EngineState) :
    (GameEngine.handleCatch it s).1.level = s.level := by
  cases h : it.type
  all_goals
    simp [GameEngine.handleCatch, h, GameEngine.addScore, GameEngine.notifyEffects,
      GameEngine.activateMagnet, GameEngine.activateTimeSlow,
      GameEngine.clearMagnetTimeout, GameEngine.clearTimeSlowTimeout, stop_fst_level]
  all_goals split_ifs <;> rfl

/-- The physics-tick filter never decreases the score. -/
theorem processItems_fst_score_mono (l : List Item) (s : EngineState) :
    s.score ≤ (GameEngine.processItems s l).1.score := by
  induction l generalizing s with
  | nil => exact le_refl _
  | cons it rest ih =>
    simp only [GameEngine.processItems]
    split_ifs with h1 h2
    · exact ih s
    · refine le_trans ?_ (ih (GameEngine.handleCatch it s).1)
      rw [handleCatch_fst_score]
      omega
    · exact ih s

/-- The physics-tick filter never changes the level. -/
theorem processItems_fst_level (l : List Item) (s : EngineState) :
    (GameEngine.processItems s l).1.level = s.level := by
  induction l generalizing s with
  | nil => rfl
  | cons it rest ih =>
    simp only [GameEngine.processItems]
    split_ifs with h1 h2
    · exact ih s
    · rw [ih, handleCatch_fst_level]
    · exact ih s

/-- The countdown tick never changes the score. -/
theorem timerTick_fst_score (s : EngineState) :
    (GameEngine.timerTick s).1.score = s.score := by
  unfold GameEngine.timerTick
  dsimp only
  split_ifs <;> rfl

/-- The countdown tick never decreases the level. -/
theorem timerTick_fst_level_mono (s : EngineState) :
    s.level ≤ (GameEngine.timerTick s).1.level := by
  unfold GameEngine.timerTick
  dsimp only
  split_ifs <;> simp [stop_fst_level]

/-- C6: under every event deliverable during a session — countdown tick,
spawn tick, physics tick, pose signal, stop, effect-timer expiry — the
score and the level never decrease, and the only score changes come from
catch resolution, which adds exactly 100 for an Apple and exactly 200 for
a Banana and nothing for any other kind. -/
theorem c6_score_level_monotone (op : GameOp) (s : EngineState) :
    s.score ≤ (GameEngine.applyOp op s).1.score ∧
    s.level ≤ (GameEngine.applyOp op s).1.level ∧
    (∀ (it : Item) (s2 : EngineState),
      (GameEngine.handleCatch it s2).1.score =
        s2.score + (if it.type = ItemType.Apple then 100
          else if it.type = ItemType.Banana then 200 else 0)) := by
  refine ⟨?_, ?_, fun it s2 => handleCatch_fst_score it s2⟩ <;>
  cases op with
  | timer =>
      first
        | exact le_of_eq (timerTick_fst_score s).symm
        | exact timerTick_fst_level_mono s
  | spawn laneR typeR =>
      simp only [GameEngine.applyOp, GameEngine.spawnTick, GameEngine.spawnItem]
      split_ifs <;> simp
  | loop =>
      simp only [GameEngine.applyOp, GameEngine.gameLoopTick, GameEngine.updatePhysics]
      split_ifs
      · first
          | exact processItems_fst_score_mono _ _
          | exact le_of_eq (processItems_fst_level _ _).symm
      · exact le_refl _
  | pose p =>
      simp only [GameEngine.applyOp, GameEngine.onPoseDetected]
      split_ifs <;> simp
  | stopOp reason =>
      first
        | exact le_of_eq (stop_fst_score reason s).symm
        | exact le_of_eq (stop_fst_level reason s).symm
  | magnetExpiryFire h =>
      simp only [GameEngine.applyOp, GameEngine.magnetFire, GameEngine.disableMagnet]
      split_ifs <;> simp [GameEngine.notifyEffects, GameEngine.clearMagnetTimeout]
  | timeSlowExpiryFire h =>
      simp only [GameEngine.applyOp, GameEngine.timeSlowFire, GameEngine.disableTimeSlow]
      split_ifs <;> simp [GameEngine.notifyEffects, GameEngine.clearTimeSlowTimeout]

/-- State left by `disableMagnet` as a record literal. -/
theorem disableMagnet_fst (s : EngineState) :
    (GameEngine.disableMagnet s).1 =
      { s with
        isMagnetActive := false
        pending := s.pending.filter (fun t => s.magnetTimer ≠ some t.handle) } := rfl

/-- State left by `disableTimeSlow` as a record literal. -/
theorem disableTimeSlow_fst (s : EngineState) :
    (GameEngine.disableTimeSlow s).1 =
      { s with
        isTimeSlowActive := false
        pending := s.pending.filter (fun t => s.timeSlowTimer ≠ some t.handle) } := rfl

/-- State left by `activateMagnet` as a record literal. -/
theorem activateMagnet_fst (s : EngineState) :
    (GameEngine.activateMagnet s).1 =
      { s with
        isMagnetActive := true
        pending := s.pending.filter (fun t => s.magnetTimer ≠ some t.handle) ++
          [⟨s.nextHandle, s.now + 5000, TimerKind.magnetExpiry⟩]
        magnetTimer := some s.nextHandle
        nextHandle := s.nextHandle + 1 } := rfl

/-- State left by `activateTimeSlow` as a record literal. -/
theorem activateTimeSlow_fst (s : EngineState) :
    (GameEngine.activateTimeSlow s).1 =
      { s with
        isTimeSlowActive := true
        pending := s.pending.filter (fun t => s.timeSlowTimer ≠ some t.handle) ++
          [⟨s.nextHandle, s.now + 5000, TimerKind.timeSlowExpiry⟩]
        timeSlowTimer := some s.nextHandle
        nextHandle := s.nextHandle + 1 } := rfl

/-- State left by `stop` as a record literal. -/
theorem stop_fst (reason : String) (s : EngineState) :
    (GameEngine.stop reason s).1 =
      { s with
        isGameActive := false
        isMagnetActive := false
        isTimeSlowActive := false
        pending := (s.pending.filter (fun t => s.magnetTimer ≠ some t.handle)).filter
          (fun t => s.timeSlowTimer ≠ some t.handle) } := rfl

/-- Transport of the timer-table invariant to any state whose timer table
is a sublist of the old one, with the remembered handles unchanged and the
fresh-handle counter not lowered. -/
theorem EngineInv_mk (s s2 : EngineState) (h : EngineInv s)
    (hp : s2.pending.Sublist s.pending) (hn : s.nextHandle ≤ s2.nextHandle)
    (hm : s2.magnetTimer = s.magnetTimer) (ht : s2.timeSlowTimer = s.timeSlowTimer) :
    EngineInv s2 := by
  obtain ⟨h1, h2, h3, h4⟩ := h
  refine ⟨List.Nodup.sublist (hp.map _) h1, fun t htm => ?_, fun t htm hk => ?_,
    fun t htm hk => ?_⟩
  · exact lt_of_lt_of_le (h2 t (hp.subset htm)) hn
  · rw [hm]
    exact h3 t (hp.subset htm) hk
  · rw [ht]
    exact h4 t (hp.subset htm) hk

/-- Invariant preservation for `disableMagnet`. -/
theorem EngineInv_disableMagnet (s : EngineState) (h : EngineInv s) :
    EngineInv (GameEngine.disableMagnet s).1 := by
  rw [disableMagnet_fst]
  exact EngineInv_mk s _ h (List.filter_sublist _) (le_refl _) rfl rfl

/-- Invariant preservation for `disableTimeSlow`. -/
theorem EngineInv_disableTimeSlow (s : EngineState) (h : EngineInv s) :
    EngineInv (GameEngine.disableTimeSlow s).1 := by
  rw [disableTimeSlow_fst]
  exact EngineInv_mk s _ h (List.filter_sublist _) (le_refl _) rfl rfl

/-- Invariant preservation for `stop`. -/
theorem EngineInv_stop (reason : String) (s : EngineState) (h : EngineInv s) :
    EngineInv (GameEngine.stop reason s).1 := by
  rw [stop_fst]
  exact EngineInv_mk s _ h ((List.filter_sublist _).trans (List.filter_sublist _))
    (le_refl _) rfl rfl

/-- Invariant preservation for `activateMagnet`: the old magnet entry is
cleared before the fresh one is scheduled. -/
theorem EngineInv_activateMagnet (s : EngineState) (h : EngineInv s) :
    EngineInv (GameEngine.activateMagnet s).1 := by
  rw [activateMagnet_fst]
  obtain ⟨h1, h2, h3, h4⟩ := h
  refine ⟨?_, ?_, ?_, ?_⟩
  · show ((s.pending.filter _ ++ [_]).map PendingTimer.handle).Nodup
    rw [List.map_append, List.nodup_append]
    refine ⟨List.Nodup.sublist ((List.filter_sublist _).map _) h1, by simp, ?_⟩
    intro x hx
    simp only [List.mem_map] at hx
    obtain ⟨t, htm, rfl⟩ := hx
    have hlt := h2 t ((List.filter_sublist _).subset htm)
    simp only [List.map_cons, List.map_nil, List.mem_singleton]
    omega
  · intro t htm
    rcases List.mem_append.mp htm with hin | hin
    · have hlt := h2 t ((List.filter_sublist _).subset hin)
      show t.handle < s.nextHandle + 1
      omega
    · simp only [List.mem_singleton] at hin
      subst hin
      show s.nextHandle < s.nextHandle + 1
      omega
  · intro t htm hk
    rcases List.mem_append.mp htm with hin | hin
    · exfalso
      rcases List.mem_filter.mp hin with ⟨hmem, hpred⟩
      have heq := h3 t hmem hk
      simp [heq] at hpred
    · simp only [List.mem_singleton] at hin
      subst hin
      rfl
  · intro t htm hk
    rcases List.mem_append.mp htm with hin | hin
    · exact h4 t ((List.filter_sublist _).subset hin) hk
    · simp only [List.mem_singleton] at hin
      subst hin
      simp at hk

/-- Invariant preservation for `activateTimeSlow`. -/
theorem EngineInv_activateTimeSlow (s : EngineState) (h : EngineInv s) :
    EngineInv (GameEngine.activateTimeSlow s).1 := by
  rw [activateTimeSlow_fst]
  obtain ⟨h1, h2, h3, h4⟩ := h
  refine ⟨?_, ?_, ?_, ?_⟩
  · show ((s.pending.filter _ ++ [_]).map PendingTimer.handle).Nodup
    rw [List.map_append, List.nodup_append]
    refine ⟨List.Nodup.sublist ((List.filter_sublist _).map _) h1, by simp, ?_⟩
    intro x hx
    simp only [List.mem_map] at hx
    obtain ⟨t, htm, rfl⟩ := hx
    have hlt := h2 t ((List.filter_sublist _).subset htm)
    simp only [List.map_cons, List.map_nil, List.mem_singleton]
    omega
  · intro t htm
    rcases List.mem_append.mp htm with hin | hin
    · have hlt := h2 t ((List.filter_sublist _).subset hin)
      show t.handle < s.nextHandle + 1
      omega
    · simp only [List.mem_singleton] at hin
      subst hin
      show s.nextHandle < s.nextHandle + 1
      omega
  · intro t htm hk
    rcases List.mem_append.mp htm with hin | hin
    · exact h3 t ((List.filter_sublist _).subset hin) hk
    · simp only [List.mem_singleton] at hin
      subst hin
      simp at hk
  · intro t htm hk
    rcases List.mem_append.mp htm with hin | hin
    · exfalso
      rcases List.mem_filter.mp hin with ⟨hmem, hpred⟩
      have heq := h4 t hmem hk
      simp [heq] at hpred
    · simp only [List.mem_singleton] at hin
      subst hin
      rfl


/-- Invariant preservation for catch resolution. -/
theorem EngineInv_handleCatch (it : Item) (s : EngineState) (h : EngineInv s) :
    EngineInv (GameEngine.handleCatch it s).1 := by
  unfold GameEngine.handleCatch
  cases htype : it.type
  case Apple => exact EngineInv_mk s _ h (List.Sublist.refl _) (le_refl _) rfl rfl
  case Banana => exact EngineInv_mk s _ h (List.Sublist.refl _) (le_refl _) rfl rfl
  case Bomb =>
    dsimp only
    split_ifs with hs
    · exact EngineInv_mk s _ h (List.Sublist.refl _) (le_refl _) rfl rfl
    · exact EngineInv_stop "Bomb" s h
  case Shield => exact EngineInv_mk s _ h (List.Sublist.refl _) (le_refl _) rfl rfl
  case Magnet => exact EngineInv_activateMagnet s h
  case Time => exact EngineInv_activateTimeSlow s h

/-- Invariant preservation for the physics-tick filter. -/
theorem EngineInv_processItems (l : List Item) (s : EngineState) (h : EngineInv s) :
    EngineInv (GameEngine.processItems s l).1 := by
  induction l generalizing s with
  | nil => exact h
  | cons it rest ih =>
    simp only [GameEngine.processItems]
    split_ifs with h1 h2
    · exact ih s h
    · exact ih _ (EngineInv_handleCatch it s h)
    · exact ih s h

/-- Invariant preservation for the physics tick. -/
theorem EngineInv_updatePhysics (s : EngineState) (h : EngineInv s) :
    EngineInv (GameEngine.updatePhysics s).1 :=
  EngineInv_mk _ _ (EngineInv_processItems (s.items.map (GameEngine.moveItem s)) s h)
    (List.Sublist.refl _) (le_refl _) rfl rfl

/-- Invariant preservation for the countdown tick. -/
theorem EngineInv_timerTick (s : EngineState) (h : EngineInv s) :
    EngineInv (GameEngine.timerTick s).1 := by
  unfold GameEngine.timerTick
  dsimp only
  split_ifs with hl hz hz
  · exact EngineInv_stop "Timeout" _
      (EngineInv_mk s _ h (List.Sublist.refl _) (le_refl _) rfl rfl)
  · exact EngineInv_mk s _ h (List.Sublist.refl _) (le_refl _) rfl rfl
  · exact EngineInv_stop "Timeout" _
      (EngineInv_mk s _ h (List.Sublist.refl _) (le_refl _) rfl rfl)
  · exact EngineInv_mk s _ h (List.Sublist.refl _) (le_refl _) rfl rfl

/-- Invariant preservation for every in-session event. -/
theorem EngineInv_applyOp (op : GameOp) (s : EngineState) (h : EngineInv s) :
    EngineInv (GameEngine.applyOp op s).1 := by
  cases op with
  | timer => exact EngineInv_timerTick s h
  | spawn laneR typeR =>
      simp only [GameEngine.applyOp, GameEngine.spawnTick, GameEngine.spawnItem]
      split_ifs
      · exact EngineInv_mk s _ h (List.Sublist.refl _) (le_refl _) rfl rfl
      · exact h
  | loop =>
      simp only [GameEngine.applyOp, GameEngine.gameLoopTick]
      split_ifs
      · exact EngineInv_updatePhysics s h
      · exact h
  | pose p =>
      simp only [GameEngine.applyOp, GameEngine.onPoseDetected]
      split_ifs
      · exact EngineInv_mk s _ h (List.Sublist.refl _) (le_refl _) rfl rfl
      · exact h
  | stopOp reason => exact EngineInv_stop reason s h
  | magnetExpiryFire hd =>
      simp only [GameEngine.applyOp, GameEngine.magnetFire]
      split_ifs
      · exact EngineInv_disableMagnet _
          (EngineInv_mk s _ h (List.filter_sublist _) (le_refl _) rfl rfl)
      · exact h
  | timeSlowExpiryFire hd =>
      simp only [GameEngine.applyOp, GameEngine.timeSlowFire]
      split_ifs
      · exact EngineInv_disableTimeSlow _
          (EngineInv_mk s _ h (List.filter_sublist _) (le_refl _) rfl rfl)
      · exact h

/-- A timer list with pairwise-distinct handles all equal to one handle
has at most one entry. -/
theorem pending_length_le_one (l : List PendingTimer) (a : ℕ)
    (hn : (l.map PendingTimer.handle).Nodup)
    (ha : ∀ t ∈ l, t.handle = a) : l.length ≤ 1 := by
  match l with
  | [] => simp
  | [t] => simp
  | t1 :: t2 :: rest =>
    exfalso
    have e1 := ha t1 (List.mem_cons_self _ _)
    have e2 := ha t2 (List.mem_cons_of_mem _ (List.mem_cons_self _ _))
    rw [List.map_cons, List.map_cons, List.nodup_cons] at hn
    apply hn.1
    rw [e1, e2]
    exact List.mem_cons_self _ _

/-- Under the invariant there is at most one live magnet-expiry timer. -/
theorem magnetPending_subsingleton (s : EngineState) (h : EngineInv s) :
    (magnetPending s).length ≤ 1 := by
  obtain ⟨h1, h2, h3, h4⟩ := h
  have hall : ∀ t ∈ magnetPending s, s.magnetTimer = some t.handle := by
    intro t htm
    rcases List.mem_filter.mp htm with ⟨hmem, hk⟩
    exact h3 t hmem (by simpa using hk)
  cases hm : s.magnetTimer with
  | none =>
      cases hl : magnetPending s with
      | nil => simp [hl]
      | cons t rest =>
          exfalso
          have := hall t (by rw [hl]; exact List.mem_cons_self _ _)
          rw [hm] at this
          exact Option.noConfusion this
  | some a =>
      refine pending_length_le_one _ a ?_ ?_
      · exact List.Nodup.sublist ((List.filter_sublist _).map _) h1
      · intro t htm
        have := hall t htm
        rw [hm] at this
        exact (Option.some.inj this).symm

/-- Under the invariant there is at most one live time-slow-expiry timer. -/
theorem timeSlowPending_subsingleton (s : EngineState) (h : EngineInv s) :
    (timeSlowPending s).length ≤ 1 := by
  obtain ⟨h1, h2, h3, h4⟩ := h
  have hall : ∀ t ∈ timeSlowPending s, s.timeSlowTimer = some t.handle := by
    intro t htm
    rcases List.mem_filter.mp htm with ⟨hmem, hk⟩
    exact h4 t hmem (by simpa using hk)
  cases hm : s.timeSlowTimer with
  | none =>
      cases hl : timeSlowPending s with
      | nil => simp [hl]
      | cons t rest =>
          exfalso
          have := hall t (by rw [hl]; exact List.mem_cons_self _ _)
          rw [hm] at this
          exact Option.noConfusion this
  | some a =>
      refine pending_length_le_one _ a ?_ ?_
      · exact List.Nodup.sublist ((List.filter_sublist _).map _) h1
      · intro t htm
        have := hall t htm
        rw [hm] at this
        exact (Option.some.inj this).symm

/-- After `activateMagnet` the live magnet-expiry timers are exactly one
fresh entry due a full 5000 ms from now. -/
theorem magnetPending_activateMagnet (s : EngineState) (h : EngineInv s) :
    magnetPending (GameEngine.activateMagnet s).1 =
      [⟨s.nextHandle, s.now + 5000, TimerKind.magnetExpiry⟩] := by
  obtain ⟨h1, h2, h3, h4⟩ := h
  rw [activateMagnet_fst]
  unfold magnetPending
  dsimp only
  rw [List.filter_append]
  have hemp : (s.pending.filter (fun t => s.magnetTimer ≠ some t.handle)).filter
      (fun t => t.kind = TimerKind.magnetExpiry) = [] := by
    rw [List.filter_eq_nil_iff]
    intro t htm
    rcases List.mem_filter.mp htm with ⟨hmem, hpred⟩
    intro hk
    have := h3 t hmem (by simpa using hk)
    simp [this] at hpred
  rw [hemp]
  simp

/-- After `activateTimeSlow` the live time-slow-expiry timers are exactly
one fresh entry due a full 5000 ms from now. -/
theorem timeSlowPending_activateTimeSlow (s : EngineState) (h : EngineInv s) :
    timeSlowPending (GameEngine.activateTimeSlow s).1 =
      [⟨s.nextHandle, s.now + 5000, TimerKind.timeSlowExpiry⟩] := by
  obtain ⟨h1, h2, h3, h4⟩ := h
  rw [activateTimeSlow_fst]
  unfold timeSlowPending
  dsimp only
  rw [List.filter_append]
  have hemp : (s.pending.filter (fun t => s.timeSlowTimer ≠ some t.handle)).filter
      (fun t => t.kind = TimerKind.timeSlowExpiry) = [] := by
    rw [List.filter_eq_nil_iff]
    intro t htm
    rcases List.mem_filter.mp htm with ⟨hmem, hpred⟩
    intro hk
    have := h4 t hmem (by simpa using hk)
    simp [this] at hpred
  rw [hemp]
  simp


/-- C7: the timer-table invariant holds in the constructor state and is
preserved by every in-session event, and under it each timed effect has at
most one live expiry timer.  Activating Magnet or TimeSlow — whether the
effect was inactive or already active — leaves the flag true and exactly
one live expiry timer, freshly scheduled a full 5000 ms from the current
time, so re-activation resets the window without stacking a second expiry
and the flag never drops to false in between. -/
theorem c7_single_expiry_timer (s : EngineState) (h : EngineInv s) :
    EngineInv GameEngine.initialState ∧
    (∀ op : GameOp, EngineInv (GameEngine.applyOp op s).1) ∧
    (magnetPending s).length ≤ 1 ∧
    (timeSlowPending s).length ≤ 1 ∧
    (GameEngine.activateMagnet s).1.isMagnetActive = true ∧
    magnetPending (GameEngine.activateMagnet s).1 =
      [⟨s.nextHandle, s.now + 5000, TimerKind.magnetExpiry⟩] ∧
    (GameEngine.activateTimeSlow s).1.isTimeSlowActive = true ∧
    timeSlowPending (GameEngine.activateTimeSlow s).1 =
      [⟨s.nextHandle, s.now + 5000, TimerKind.timeSlowExpiry⟩] :=
  ⟨by decide, fun op => EngineInv_applyOp op s h,
    magnetPending_subsingleton s h, timeSlowPending_subsingleton s h,
    rfl, magnetPending_activateMagnet s h,
    rfl, timeSlowPending_activateTimeSlow s h⟩

/-- C7 (witness): the timer statement evaluated on a state whose magnet
effect is already active with a live expiry timer. -/
theorem c7_single_expiry_timer_witness :
    EngineInv magnetOnState ∧
    (EngineInv GameEngine.initialState ∧
    (∀ op : GameOp, EngineInv (GameEngine.applyOp op magnetOnState).1) ∧
    (magnetPending magnetOnState).length ≤ 1 ∧
    (timeSlowPending magnetOnState).length ≤ 1 ∧
    (GameEngine.activateMagnet magnetOnState).1.isMagnetActive = true ∧
    magnetPending (GameEngine.activateMagnet magnetOnState).1 =
      [⟨magnetOnState.nextHandle, magnetOnState.now + 5000, TimerKind.magnetExpiry⟩] ∧
    (GameEngine.activateTimeSlow magnetOnState).1.isTimeSlowActive = true ∧
    timeSlowPending (GameEngine.activateTimeSlow magnetOnState).1 =
      [⟨magnetOnState.nextHandle, magnetOnState.now + 5000, TimerKind.timeSlowExpiry⟩]) :=
  ⟨by decide, c7_single_expiry_timer magnetOnState (by decide)⟩

/-- C8: the specification says `stop` leaves the visible effect flags
unchanged; but `stop` runs `disableMagnet`/`disableTimeSlow`, so on a
concrete state with the magnet flag set, `stop` clears it. -/
theorem c8_stop_flag_counterexample :
    magnetOnState.isMagnetActive = true ∧
    (GameEngine.stop "Timeout" magnetOnState).1.isMagnetActive = false := by
  decide

/-- C8 (amended): `stop` cancels every pending effect-expiry timer and
leaves all state fields unchanged except the active flag, which goes
false, and the two timed-effect flags `isMagnetActive`/`isTimeSlowActive`,
which it clears (emitting effect-change notifications); `hasShield` and
all other fields are untouched. -/
theorem c8_stop_effect_state (reason : String) (s : EngineState) (h : EngineInv s) :
    (GameEngine.stop reason s).1.pending = [] ∧
    (GameEngine.stop reason s).1.hasShield = s.hasShield ∧
    (GameEngine.stop reason s).1.isMagnetActive = false ∧
    (GameEngine.stop reason s).1.isTimeSlowActive = false ∧
    (GameEngine.stop reason s).1.score = s.score ∧
    (GameEngine.stop reason s).1.level = s.level ∧
    (GameEngine.stop reason s).1.items = s.items ∧
    (GameEngine.stop reason s).1.timeLimit = s.timeLimit ∧
    (GameEngine.stop reason s).1.basketPosition = s.basketPosition ∧
    (GameEngine.stop reason s).1.itemCounter = s.itemCounter ∧
    (GameEngine.stop reason s).1.baseSpeed = s.baseSpeed ∧
    (GameEngine.stop reason s).1.currentPose = s.currentPose ∧
    GEvent.effectChange s.hasShield false s.isTimeSlowActive ∈ (GameEngine.stop reason s).2 ∧
    GEvent.effectChange s.hasShield false false ∈ (GameEngine.stop reason s).2 := by
  obtain ⟨h1, h2, h3, h4⟩ := h
  refine ⟨?_, rfl, rfl, rfl, rfl, rfl, rfl, rfl, rfl, rfl, rfl, rfl, ?_, ?_⟩
  · rw [stop_fst]
    show ((s.pending.filter _).filter _) = []
    rw [List.filter_eq_nil_iff]
    intro t htm
    rcases List.mem_filter.mp htm with ⟨hmem1, hpred1⟩
    cases hk : t.kind with
    | magnetExpiry =>
        exfalso
        have heq := h3 t hmem1 hk
        simp [heq] at hpred1
    | timeSlowExpiry =>
        have heq := h4 t hmem1 hk
        simp [heq]
  · rw [stop_events]
    simp
  · rw [stop_events]
    simp


/-- C8 (amended, witness): the stop-state statement evaluated on a state
with the magnet effect active and a live expiry timer. -/
theorem c8_stop_effect_state_witness :
    EngineInv magnetOnState ∧
    ((GameEngine.stop "Bomb" magnetOnState).1.pending = [] ∧
    (GameEngine.stop "Bomb" magnetOnState).1.hasShield = magnetOnState.hasShield ∧
    (GameEngine.stop "Bomb" magnetOnState).1.isMagnetActive = false ∧
    (GameEngine.stop "Bomb" magnetOnState).1.isTimeSlowActive = false ∧
    (GameEngine.stop "Bomb" magnetOnState).1.score = magnetOnState.score ∧
    (GameEngine.stop "Bomb" magnetOnState).1.level = magnetOnState.level ∧
    (GameEngine.stop "Bomb" magnetOnState).1.items = magnetOnState.items ∧
    (GameEngine.stop "Bomb" magnetOnState).1.timeLimit = magnetOnState.timeLimit ∧
    (GameEngine.stop "Bomb" magnetOnState).1.basketPosition = magnetOnState.basketPosition ∧
    (GameEngine.stop "Bomb" magnetOnState).1.itemCounter = magnetOnState.itemCounter ∧
    (GameEngine.stop "Bomb" magnetOnState).1.baseSpeed = magnetOnState.baseSpeed ∧
    (GameEngine.stop "Bomb" magnetOnState).1.currentPose = magnetOnState.currentPose ∧
    GEvent.effectChange magnetOnState.hasShield false magnetOnState.isTimeSlowActive ∈
      (GameEngine.stop "Bomb" magnetOnState).2 ∧
    GEvent.effectChange magnetOnState.hasShield false false ∈
      (GameEngine.stop "Bomb" magnetOnState).2) :=
  ⟨by decide, c8_stop_effect_state "Bomb" magnetOnState (by decide)⟩

/-- Lane selection partitions the unit interval into three equal thirds. -/
theorem laneOfRand_intervals (r : ℚ) (h0 : 0 ≤ r) (h1 : r < 1) :
    (GameEngine.laneOfRand r = Lane.Left ↔ r < 1/3) ∧
    (GameEngine.laneOfRand r = Lane.Center ↔ 1/3 ≤ r ∧ r < 2/3) ∧
    (GameEngine.laneOfRand r = Lane.Right ↔ 2/3 ≤ r) := by
  have hn0 : (0:ℤ) ≤ ⌊r*3⌋ := Int.floor_nonneg.mpr (by linarith)
  have hn3 : ⌊r*3⌋ < 3 := Int.floor_lt.mpr (by push_cast; linarith)
  rcases (by omega : ⌊r*3⌋ = 0 ∨ ⌊r*3⌋ = 1 ∨ ⌊r*3⌋ = 2) with he | he | he
  · have hlane : GameEngine.laneOfRand r = Lane.Left := by
      unfold GameEngine.laneOfRand
      rw [he]
      rfl
    have hb : r < 1/3 := by
      have h2 : r * 3 < ((1:ℤ):ℚ) := Int.floor_lt.mp (by omega)
      push_cast at h2
      linarith
    rw [hlane]
    refine ⟨⟨fun _ => hb, fun _ => rfl⟩,
      ⟨fun hh => absurd hh (by decide), fun hcon => absurd hb (by linarith [hcon.1])⟩,
      ⟨fun hh => absurd hh (by decide), fun ha => absurd hb (by linarith)⟩⟩
  · have hlane : GameEngine.laneOfRand r = Lane.Center := by
      unfold GameEngine.laneOfRand
      rw [he]
      rfl
    have hb1 : 1/3 ≤ r := by
      have h2 : ((1:ℤ):ℚ) ≤ r * 3 := Int.le_floor.mp (by omega)
      push_cast at h2
      linarith
    have hb2 : r < 2/3 := by
      have h2 : r * 3 < ((2:ℤ):ℚ) := Int.floor_lt.mp (by omega)
      push_cast at h2
      linarith
    rw [hlane]
    refine ⟨⟨fun hh => absurd hh (by decide), fun hcon => absurd hb1 (by linarith)⟩,
      ⟨fun _ => ⟨hb1, hb2⟩, fun _ => rfl⟩,
      ⟨fun hh => absurd hh (by decide), fun ha => absurd hb2 (by linarith)⟩⟩
  · have hlane : GameEngine.laneOfRand r = Lane.Right := by
      unfold GameEngine.laneOfRand
      rw [he]
      rfl
    have hb : 2/3 ≤ r := by
      have h2 : ((2:ℤ):ℚ) ≤ r * 3 := Int.le_floor.mp (by omega)
      push_cast at h2
      linarith
    rw [hlane]
    refine ⟨⟨fun hh => absurd hh (by decide), fun hcon => absurd hb (by linarith)⟩,
      ⟨fun hh => absurd hh (by decide), fun hcon => absurd hb (by linarith [hcon.2])⟩,
      ⟨fun _ => hb, fun _ => rfl⟩⟩

/-- The cumulative item-kind table, characterised by draw intervals. -/
theorem itemTypeOfRand_intervals (r : ℚ) :
    (GameEngine.itemTypeOfRand r = ItemType.Bomb ↔ r < 15/100) ∧
    (GameEngine.itemTypeOfRand r = ItemType.Banana ↔ 15/100 ≤ r ∧ r < 25/100) ∧
    (GameEngine.itemTypeOfRand r = ItemType.Shield ↔ 25/100 ≤ r ∧ r < 30/100) ∧
    (GameEngine.itemTypeOfRand r = ItemType.Magnet ↔ 30/100 ≤ r ∧ r < 35/100) ∧
    (GameEngine.itemTypeOfRand r = ItemType.Time ↔ 35/100 ≤ r ∧ r < 40/100) ∧
    (GameEngine.itemTypeOfRand r = ItemType.Apple ↔ 40/100 ≤ r) := by
  unfold GameEngine.itemTypeOfRand
  split_ifs with a b c d e
  all_goals refine ⟨?_, ?_, ?_, ?_, ?_, ?_⟩
  all_goals constructor
  all_goals intro h
  all_goals
    first
      | rfl
      | exact absurd h (by decide)
      | linarith
      | exact ⟨by linarith, by linarith⟩

/-- Items surviving the physics-tick filter come from the processed list. -/
theorem processItems_kept_subset (l : List Item) (s : EngineState) :
    ∀ it ∈ (GameEngine.processItems s l).2.1, it ∈ l := by
  induction l generalizing s with
  | nil => simp [GameEngine.processItems]
  | cons a rest ih =>
    simp only [GameEngine.processItems]
    split_ifs with h1 h2
    · intro it hm
      exact List.mem_cons_of_mem _ (ih s it hm)
    · intro it hm
      exact List.mem_cons_of_mem _ (ih _ it hm)
    · intro it hm
      rcases List.mem_cons.mp hm with he | hm2
      · exact he ▸ List.mem_cons_self _ _
      · exact List.mem_cons_of_mem _ (ih s it hm2)

/-- The motion phase keeps an item identity. -/
theorem moveItem_id (s : EngineState) (it : Item) :
    (GameEngine.moveItem s it).id = it.id := by
  unfold GameEngine.moveItem
  dsimp only
  split_ifs <;> rfl

/-- The motion phase never touches the frozen spawn speed. -/
theorem moveItem_originalSpeed (s : EngineState) (it : Item) :
    (GameEngine.moveItem s it).originalSpeed = it.originalSpeed := by
  unfold GameEngine.moveItem
  dsimp only
  split_ifs <;> rfl

/-- The countdown tick never touches the item set. -/
theorem timerTick_fst_items (s : EngineState) :
    (GameEngine.timerTick s).1.items = s.items := by
  unfold GameEngine.timerTick
  dsimp only
  split_ifs <;> rfl

/-- C5 (amended): every spawn draws the lane uniformly (each lane taken on
an interval of length exactly one third of the unit draw), maps one
uniform draw through the fixed ordered cumulative table — Bomb below
15/100, then Banana to 25/100, Shield to 30/100, Magnet to 35/100,
TimeSlow to 40/100, remainder Apple, the same table at every level —
gives Banana the current base speed plus a fixed 2/10 bonus and every
other kind exactly the current base speed, and freezes that speed onto
the item: a countdown tick (which may raise the base speed) never touches
the items, and the physics tick preserves each surviving item's frozen
speed. -/
theorem c5_spawn_distribution (s : EngineState) (laneR typeR : ℚ)
    (h0 : 0 ≤ laneR) (h1 : laneR < 1) :
    ((GameEngine.mkSpawnItem laneR typeR s).lane = Lane.Left ↔ laneR < 1/3) ∧
    ((GameEngine.mkSpawnItem laneR typeR s).lane = Lane.Center ↔ 1/3 ≤ laneR ∧ laneR < 2/3) ∧
    ((GameEngine.mkSpawnItem laneR typeR s).lane = Lane.Right ↔ 2/3 ≤ laneR) ∧
    ((GameEngine.mkSpawnItem laneR typeR s).type = ItemType.Bomb ↔ typeR < 15/100) ∧
    ((GameEngine.mkSpawnItem laneR typeR s).type = ItemType.Banana ↔
      15/100 ≤ typeR ∧ typeR < 25/100) ∧
    ((GameEngine.mkSpawnItem laneR typeR s).type = ItemType.Shield ↔
      25/100 ≤ typeR ∧ typeR < 30/100) ∧
    ((GameEngine.mkSpawnItem laneR typeR s).type = ItemType.Magnet ↔
      30/100 ≤ typeR ∧ typeR < 35/100) ∧
    ((GameEngine.mkSpawnItem laneR typeR s).type = ItemType.Time ↔
      35/100 ≤ typeR ∧ typeR < 40/100) ∧
    ((GameEngine.mkSpawnItem laneR typeR s).type = ItemType.Apple ↔ 40/100 ≤ typeR) ∧
    ((GameEngine.mkSpawnItem laneR typeR s).originalSpeed = s.baseSpeed +
      (if (GameEngine.mkSpawnItem laneR typeR s).type = ItemType.Banana then 2/10 else 0)) ∧
    ((GameEngine.mkSpawnItem laneR typeR s).speed =
      (GameEngine.mkSpawnItem laneR typeR s).originalSpeed) ∧
    (GameEngine.timerTick s).1.items = s.items ∧
    (∀ it ∈ (GameEngine.updatePhysics s).1.items, ∃ it0 ∈ s.items,
      it.id = it0.id ∧ it.originalSpeed = it0.originalSpeed) := by
  obtain ⟨l1, l2, l3⟩ := laneOfRand_intervals laneR h0 h1
  obtain ⟨t1, t2, t3, t4, t5, t6⟩ := itemTypeOfRand_intervals typeR
  refine ⟨l1, l2, l3, t1, t2, t3, t4, t5, t6, rfl, rfl, timerTick_fst_items s, ?_⟩
  intro it hm
  have hmem : it ∈ s.items.map (GameEngine.moveItem s) :=
    processItems_kept_subset _ s it hm
  rcases List.mem_map.mp hmem with ⟨it0, hit0, rfl⟩
  exact ⟨it0, hit0, moveItem_id s it0, moveItem_originalSpeed s it0⟩

/-- C5: the specification says the bomb share of the spawn table is
level-dependent; the kind selected by `spawnItem` does not depend on the
engine state at all (in particular not on the level), only on the draw. -/
theorem c5_bombshare_counterexample :
    ¬ ∃ (s1 s2 : EngineState) (laneR typeR : ℚ),
      (GameEngine.mkSpawnItem laneR typeR s1).type ≠
        (GameEngine.mkSpawnItem laneR typeR s2).type := by
  rintro ⟨s1, s2, laneR, typeR, hne⟩
  exact hne rfl


/-- C5 (amended, witness): the spawn statement evaluated at the draws
laneR = 1/2, typeR = 1/2 on the constructor state. -/
theorem c5_spawn_distribution_witness :
    (0:ℚ) ≤ 1/2 ∧ (1/2:ℚ) < 1 ∧
    (((GameEngine.mkSpawnItem (1/2) (1/2) GameEngine.initialState).lane = Lane.Left ↔
        (1/2:ℚ) < 1/3) ∧
    ((GameEngine.mkSpawnItem (1/2) (1/2) GameEngine.initialState).lane = Lane.Center ↔
        (1/3:ℚ) ≤ 1/2 ∧ (1/2:ℚ) < 2/3) ∧
    ((GameEngine.mkSpawnItem (1/2) (1/2) GameEngine.initialState).lane = Lane.Right ↔
        (2/3:ℚ) ≤ 1/2) ∧
    ((GameEngine.mkSpawnItem (1/2) (1/2) GameEngine.initialState).type = ItemType.Bomb ↔
        (1/2:ℚ) < 15/100) ∧
    ((GameEngine.mkSpawnItem (1/2) (1/2) GameEngine.initialState).type = ItemType.Banana ↔
        (15/100:ℚ) ≤ 1/2 ∧ (1/2:ℚ) < 25/100) ∧
    ((GameEngine.mkSpawnItem (1/2) (1/2) GameEngine.initialState).type = ItemType.Shield ↔
        (25/100:ℚ) ≤ 1/2 ∧ (1/2:ℚ) < 30/100) ∧
    ((GameEngine.mkSpawnItem (1/2) (1/2) GameEngine.initialState).type = ItemType.Magnet ↔
        (30/100:ℚ) ≤ 1/2 ∧ (1/2:ℚ) < 35/100) ∧
    ((GameEngine.mkSpawnItem (1/2) (1/2) GameEngine.initialState).type = ItemType.Time ↔
        (35/100:ℚ) ≤ 1/2 ∧ (1/2:ℚ) < 40/100) ∧
    ((GameEngine.mkSpawnItem (1/2) (1/2) GameEngine.initialState).type = ItemType.Apple ↔
        (40/100:ℚ) ≤ 1/2) ∧
    ((GameEngine.mkSpawnItem (1/2) (1/2) GameEngine.initialState).originalSpeed =
      GameEngine.initialState.baseSpeed +
      (if (GameEngine.mkSpawnItem (1/2) (1/2) GameEngine.initialState).type = ItemType.Banana
        then 2/10 else 0)) ∧
    ((GameEngine.mkSpawnItem (1/2) (1/2) GameEngine.initialState).speed =
      (GameEngine.mkSpawnItem (1/2) (1/2) GameEngine.initialState).originalSpeed) ∧
    (GameEngine.timerTick GameEngine.initialState).1.items = GameEngine.initialState.items ∧
    (∀ it ∈ (GameEngine.updatePhysics GameEngine.initialState).1.items,
      ∃ it0 ∈ GameEngine.initialState.items,
        it.id = it0.id ∧ it.originalSpeed = it0.originalSpeed)) :=
  ⟨by norm_num, by norm_num,
    c5_spawn_distribution GameEngine.initialState (1/2) (1/2) (by norm_num) (by norm_num)⟩

/-- C10: when a caught Bomb without Shield stops the game in the middle of
the physics-tick filter, the filter does not abort: items later in spawn
order are still evaluated against the (now inactive, basket unchanged)
state, so an Apple sitting in the catch band right after the Bomb is still
caught — its item-removed and score-change notifications fire after the
game-end notification, the score still increases — and the tick's render
notification still fires last on every physics tick. -/
theorem c10_stop_mid_tick_continues (s : EngineState) (b a : Item) (post : List Item)
    (hb : b.type = ItemType.Bomb) (hsh : s.hasShield = false)
    (hby1 : 80 < b.y) (hby2 : b.y < 95) (hbl : b.lane = s.basketPosition)
    (hat : a.type = ItemType.Apple)
    (hay1 : 80 < a.y) (hay2 : a.y < 95) (hal : a.lane = s.basketPosition) :
    GameEngine.processItems s (b :: a :: post) =
      ((GameEngine.processItems
          (GameEngine.addScore 100 (GameEngine.stop "Bomb" s).1).1 post).1,
       (GameEngine.processItems
          (GameEngine.addScore 100 (GameEngine.stop "Bomb" s).1).1 post).2.1,
       (GameEngine.stop "Bomb" s).2 ++
         GEvent.itemRemove b.id ::
           GEvent.scoreChange (s.score + 100) s.level ::
             GEvent.itemRemove a.id ::
               (GameEngine.processItems
                  (GameEngine.addScore 100 (GameEngine.stop "Bomb" s).1).1 post).2.2) ∧
    (GameEngine.stop "Bomb" s).1.isGameActive = false ∧
    (GameEngine.addScore 100 (GameEngine.stop "Bomb" s).1).1.score = s.score + 100 ∧
    GEvent.gameEnd s.score s.level "Bomb" ∈ (GameEngine.stop "Bomb" s).2 ∧
    (∀ s0 : EngineState, (GameEngine.updatePhysics s0).2.getLast? =
      some (GEvent.render (GameEngine.updatePhysics s0).1.items)) := by
  have hcb : GameEngine.handleCatch b s = GameEngine.stop "Bomb" s := by
    unfold GameEngine.handleCatch
    rw [hb, hsh]
    simp
  have hca : ∀ st : EngineState, GameEngine.handleCatch a st = GameEngine.addScore 100 st := by
    intro st
    unfold GameEngine.handleCatch
    rw [hat]
  refine ⟨?_, rfl, rfl, ?_, ?_⟩
  · simp only [GameEngine.processItems]
    rw [if_neg (by linarith : ¬ b.y > 100)]
    rw [if_pos (show (80 < b.y ∧ b.y < 95) ∧ (b.lane = s.basketPosition ∨
        (s.isMagnetActive = true ∧ collectibleKinds.contains b.type = true)) from
        ⟨⟨hby1, hby2⟩, Or.inl hbl⟩)]
    rw [hcb]
    rw [if_neg (by linarith : ¬ a.y > 100)]
    rw [if_pos (show (80 < a.y ∧ a.y < 95) ∧
        (a.lane = (GameEngine.stop "Bomb" s).1.basketPosition ∨
        ((GameEngine.stop "Bomb" s).1.isMagnetActive = true ∧
          collectibleKinds.contains a.type = true)) from
        ⟨⟨hay1, hay2⟩, Or.inl (by rw [stop_fst_basket]; exact hal)⟩)]
    rw [hca]
    rfl
  · rw [stop_events]
    simp
  · intro s0
    unfold GameEngine.updatePhysics
    dsimp only
    rw [List.getLast?_concat]


/-- C10 (witness): the mid-tick-stop statement evaluated on a concrete
active shieldless state with a Bomb and then an Apple in the catch band. -/
theorem c10_stop_mid_tick_continues_witness :
    bombItem.type = ItemType.Bomb ∧
    plainActiveState.hasShield = false ∧
    (80:ℚ) < bombItem.y ∧ bombItem.y < 95 ∧
    bombItem.lane = plainActiveState.basketPosition ∧
    appleItem.type = ItemType.Apple ∧
    (80:ℚ) < appleItem.y ∧ appleItem.y < 95 ∧
    appleItem.lane = plainActiveState.basketPosition ∧
    (GameEngine.processItems plainActiveState (bombItem :: appleItem :: []) =
      ((GameEngine.processItems
          (GameEngine.addScore 100 (GameEngine.stop "Bomb" plainActiveState).1).1 []).1,
       (GameEngine.processItems
          (GameEngine.addScore 100 (GameEngine.stop "Bomb" plainActiveState).1).1 []).2.1,
       (GameEngine.stop "Bomb" plainActiveState).2 ++
         GEvent.itemRemove bombItem.id ::
           GEvent.scoreChange (plainActiveState.score + 100) plainActiveState.level ::
             GEvent.itemRemove appleItem.id ::
               (GameEngine.processItems
                  (GameEngine.addScore 100 (GameEngine.stop "Bomb" plainActiveState).1).1 []).2.2) ∧
    (GameEngine.stop "Bomb" plainActiveState).1.isGameActive = false ∧
    (GameEngine.addScore 100 (GameEngine.stop "Bomb" plainActiveState).1).1.score =
      plainActiveState.score + 100 ∧
    GEvent.gameEnd plainActiveState.score plainActiveState.level "Bomb" ∈
      (GameEngine.stop "Bomb" plainActiveState).2 ∧
    (∀ s0 : EngineState, (GameEngine.updatePhysics s0).2.getLast? =
      some (GEvent.render (GameEngine.updatePhysics s0).1.items))) :=
  ⟨rfl, rfl, by norm_num [bombItem], by norm_num [bombItem], rfl, rfl,
    by norm_num [appleItem], by norm_num [appleItem], rfl,
    c10_stop_mid_tick_continues plainActiveState bombItem appleItem [] rfl rfl
      (by norm_num [bombItem]) (by norm_num [bombItem]) rfl rfl
      (by norm_num [appleItem]) (by norm_num [appleItem]) rfl⟩

end SkyFruit
